import Mathlib

/-!
Shallow embedding of the authorization-and-integrity core of the
marzetti-peluqueria backend (FastAPI + SQLAlchemy), translated from
`app/config.py`, `app/models.py`, `app/auth.py`, `app/routers/auth.py`,
`app/routers/categories.py`, `app/routers/products.py` and
`app/admin/router.py`.

Modelling conventions:
- the database session is an explicit `State` value (lists of rows); an
  operation returns its outcome together with the resulting state.  A raised
  `HTTPException` before `commit` leaves the session un-committed, so error
  outcomes carry the unchanged state;
- the upload directory is the list `State.files` of stored file names;
- timestamps are integers (Unix seconds); `datetime.now(timezone.utc)` is an
  explicit `now` parameter;
- `uuid.uuid4().hex` is an explicit `uuidHex` parameter (a fresh random
  token); auto-increment primary keys are explicit `newId` parameters;
- a JWT is a `Token` record carrying its claims together with the secret and
  algorithm it was signed with; `jose.jwt.decode` succeeds exactly when both
  signing parameters match and the `exp` claim is not in the past;
- `bcrypt.checkpw` is an abstract parameter `verify_password` of the login
  operations, since the hash itself is an external library.
-/

namespace Marzetti

/-- Configuration, from `app/config.py` (`Settings`), with the same default
values for the optional fields. -/
structure Settings where
  DATABASE_URL : String
  JWT_SECRET : String
  ADMIN_USERNAME : String := "admin"
  ADMIN_PASSWORD : String := "admin"
  JWT_ALGORITHM : String := "HS256"
  JWT_EXPIRE_HOURS : Int := 24
  CORS_ORIGINS : String := "http://localhost:3000,http://127.0.0.1:3000"
  deriving Repr, DecidableEq

/-- Admin row, from `app/models.py` (`Admin`). -/
structure Admin where
  id : Nat
  username : String
  password_hash : String
  created_at : Int
  deriving Repr, DecidableEq

/-- Category row, as used by `app/routers/categories.py` and
`app/routers/products.py` (`Category`: id, unique name, created_at).
`app/models.py` in the repository does not actually define this class even
though `app/main.py` and the routers import it; the row shape here is the one
the routers and `migrate_categories.py` address (id, name, created_at). -/
structure Category where
  id : Nat
  name : String
  created_at : Int
  deriving Repr, DecidableEq

/-- Product row.  The JSON routers address a category foreign key
(`category_id`, checked against `Category`), while `app/models.py` and the
HTML admin router still carry the legacy free-string `category` column.  The
embedding keeps both columns; a code path that never assigns one leaves it
`none`. -/
structure Product where
  id : Nat
  name : String
  description : Option String
  price : Int
  category_id : Option Nat
  category : Option String
  image_path : Option String
  created_at : Int
  updated_at : Int
  deriving Repr, DecidableEq

/-- The persistent state: the three tables plus the names of the files
present in the upload directory. -/
structure State where
  admins : List Admin
  categories : List Category
  products : List Product
  files : List String
  deriving Repr, DecidableEq

/-- A `fastapi.HTTPException`: status code and detail message. -/
structure HTTPError where
  status : Nat
  detail : String
  deriving Repr, DecidableEq

/-- An uploaded file as the routers see it (`fastapi.UploadFile`): only its
client-supplied filename matters to the control flow modelled here. -/
structure UploadFile where
  filename : String
  deriving Repr, DecidableEq

/-- Truthiness test `if image and image.filename:` used by every
image-handling branch: a file object is present and its filename is
non-empty. -/
def hasUpload : Option UploadFile → Bool
  | some f => f.filename != ""
  | none => false

/-- The client-supplied filename of an upload (`""` when absent). -/
def filenameOf : Option UploadFile → String
  | some f => f.filename
  | none => ""

/-- Extension part of `os.path.splitext(filename)[1]`: the suffix starting at
the last dot, empty when there is no dot or when every character before the
last dot is itself a dot (Python treats a leading-dots name as having no
extension). -/
def splitextExt (fname : String) : String :=
  let cs := fname.data
  match cs.reverse.findIdx? (fun c => c == '.') with
  | none => ""
  | some k =>
    let dotPos := cs.length - k - 1
    if (cs.take dotPos).any (fun c => c != '.') then
      String.mk (cs.drop dotPos)
    else ""

/-- Token Service, issue side: `create_access_token` in `app/auth.py`.  The
`data` dict at every call site is `{"sub": username}`; it is modelled by its
optional `sub` entry.  The expiry claim is
`now + JWT_EXPIRE_HOURS` hours, and the token is signed with the configured
secret and algorithm. -/
structure Token where
  sub : Option String
  exp : Int
  sigSecret : String
  sigAlg : String
  deriving Repr, DecidableEq

/-- Issues a token: `create_access_token` (`app/auth.py` lines 23-27). -/
def create_access_token (settings : Settings) (now : Int) (data : Option String) : Token :=
  { sub := data
    exp := now + settings.JWT_EXPIRE_HOURS * 3600
    sigSecret := settings.JWT_SECRET
    sigAlg := settings.JWT_ALGORITHM }

/-- Validates a token: `decode_token` (`app/auth.py` lines 30-35).
`jose.jwt.decode` verifies the signature (secret and allowed algorithm) and
the `exp` claim (expired exactly when `exp < now`, zero leeway); any failure
raises `JWTError`, which the function turns into `None`. -/
def decode_token (settings : Settings) (now : Int) (token : Token) : Option Token :=
  if token.sigSecret = settings.JWT_SECRET ∧ token.sigAlg = settings.JWT_ALGORITHM ∧
      ¬ token.exp < now then
    some token
  else
    none

/-- Header-based session resolution: `get_current_admin` (`app/auth.py` lines
38-55).  `credentials` is the parsed bearer token, `none` when the
`Authorization` header is absent.  Python's `if not username` also rejects an
empty-string subject. -/
def get_current_admin (settings : Settings) (now : Int) (credentials : Option Token)
    (s : State) : Except HTTPError Admin :=
  match credentials with
  | none => .error ⟨401, "No autenticado"⟩
  | some token =>
    match decode_token settings now token with
    | none => .error ⟨401, "Token inválido"⟩
    | some payload =>
      match payload.sub with
      | none => .error ⟨401, "Token inválido"⟩
      | some username =>
        if username = "" then .error ⟨401, "Token inválido"⟩
        else
          match s.admins.find? (fun a => a.username == username) with
          | none => .error ⟨401, "Admin no encontrado"⟩
          | some admin => .ok admin

/-- Cookie-based session resolution: `get_admin_from_cookie` (`app/auth.py`
lines 58-69).  `cookie` is the token carried by the `access_token` cookie,
`none` when the cookie is absent.  Every failure returns `none` instead of
raising. -/
def get_admin_from_cookie (settings : Settings) (now : Int) (cookie : Option Token)
    (s : State) : Option Admin :=
  match cookie with
  | none => none
  | some token =>
    match decode_token settings now token with
    | none => none
    | some payload =>
      match payload.sub with
      | none => none
      | some username =>
        if username = "" then none
        else s.admins.find? (fun a => a.username == username)

/-- JSON login endpoint: `login` in `app/routers/auth.py` (lines 12-22).
`verify_password` stands for `bcrypt.checkpw(plain, hashed)`.  The single
`if not admin or not verify_password(...)` branch produces one and the same
401 response for an unknown username and for a wrong password (the detail
string is byte-for-byte the literal in the source, mojibake included). -/
def login (verify_password : String → String → Bool) (settings : Settings) (now : Int)
    (s : State) (username password : String) : Except HTTPError Token :=
  match s.admins.find? (fun a => a.username == username) with
  | none => .error ⟨401, "Credenciales inv√°lidas"⟩
  | some admin =>
    if verify_password password admin.password_hash then
      .ok (create_access_token settings now (some admin.username))
    else
      .error ⟨401, "Credenciales inv√°lidas"⟩

/-- Outcome of the HTML login form: re-render `login.html` with an error, or
redirect to `/admin/products` setting the `access_token` cookie. -/
inductive LoginPage where
  | errorPage (error : String)
  | redirectWithCookie (access_token : Token)
  deriving Repr, DecidableEq

/-- HTML login endpoint: `login_submit` in `app/admin/router.py` (lines
32-48).  As in the JSON endpoint, unknown username and wrong password take
the same branch and produce the identical error page. -/
def login_submit (verify_password : String → String → Bool) (settings : Settings)
    (now : Int) (s : State) (username password : String) : LoginPage :=
  match s.admins.find? (fun a => a.username == username) with
  | none => .errorPage "Credenciales inválidas"
  | some admin =>
    if verify_password password admin.password_hash then
      .redirectWithCookie (create_access_token settings now (some admin.username))
    else
      .errorPage "Credenciales inválidas"

/-- Category create: `create_category` in `app/routers/categories.py` (lines
30-48).  Rejects with 400 when a category with exactly the same name (SQL
`=` on the name column, case-sensitive) already exists; otherwise inserts
the new row. -/
def create_category (s : State) (now : Int) (newId : Nat) (name : String) :
    Except HTTPError Category × State :=
  if (s.categories.find? (fun c => c.name == name)).isSome then
    (.error ⟨400, "La categoría ya existe"⟩, s)
  else
    let category : Category := { id := newId, name := name, created_at := now }
    (.ok category, { s with categories := s.categories ++ [category] })

/-- Category rename: `update_category` in `app/routers/categories.py` (lines
51-76).  404 when the id does not exist; 400 when another category (different
id) already carries the target name; otherwise the row's name is overwritten
and committed. -/
def update_category (s : State) (category_id : Nat) (name : String) :
    Except HTTPError Category × State :=
  match s.categories.find? (fun c => c.id == category_id) with
  | none => (.error ⟨404, "Categoría no encontrada"⟩, s)
  | some category =>
    if (s.categories.find? (fun c => c.name == name && c.id != category_id)).isSome then
      (.error ⟨400, "El nombre de categoría ya existe"⟩, s)
    else
      (.ok { category with name := name },
       { s with categories :=
          s.categories.map (fun c => if c.id = category_id then { c with name := name } else c) })

/-- Category delete: `delete_category` in `app/routers/categories.py` (lines
79-102).  404 when the id does not exist; 400 when at least one product row
references the category (`select(Product).where(Product.category_id == id)`,
which a SQL NULL `category_id` never matches); otherwise the row is
deleted. -/
def delete_category (s : State) (category_id : Nat) : Except HTTPError Unit × State :=
  match s.categories.find? (fun c => c.id == category_id) with
  | none => (.error ⟨404, "Categoría no encontrada"⟩, s)
  | some _ =>
    if (s.products.find? (fun p => p.category_id == some category_id)).isSome then
      (.error ⟨400, "No se puede eliminar una categoría que tiene productos asociados"⟩, s)
    else
      (.ok (), { s with categories := s.categories.filter (fun c => c.id != category_id) })

/-- JSON product create: `create_product` in `app/routers/products.py` (lines
56-90).  The category existence check comes first; only then is the uploaded
image (if any) written under the generated name `uuid4().hex + ext`, and only
then is the row inserted and committed. -/
def create_product (s : State) (now : Int) (newId : Nat) (uuidHex : String)
    (name : String) (description : Option String) (price : Int) (category_id : Nat)
    (image : Option UploadFile) : Except HTTPError Product × State :=
  if (s.categories.find? (fun c => c.id == category_id)).isNone then
    (.error ⟨400, "Categoría no encontrada"⟩, s)
  else
    let image_path : Option String :=
      if hasUpload image then some (uuidHex ++ splitextExt (filenameOf image)) else none
    let files1 : List String :=
      match image_path with
      | some f => s.files ++ [f]
      | none => s.files
    let product : Product :=
      { id := newId, name := name, description := description, price := price
        category_id := some category_id, category := none, image_path := image_path
        created_at := now, updated_at := now }
    (.ok product, { s with products := s.products ++ [product], files := files1 })

/-- JSON product update: `update_product` in `app/routers/products.py` (lines
93-139).  Each of name/description/price/category_id is applied only when
supplied (`if field is not None: product.field = field`); a supplied
category_id must exist or the request fails with 400 before commit.  A new
upload first removes the old file if it exists on disk (`os.remove` guarded
by `os.path.exists`), then stores the new content under `uuid4().hex + ext`
and points `image_path` at it.  SQLAlchemy's `onupdate` refreshes
`updated_at` exactly when the flush writes an UPDATE, i.e. when some column
net-changed. -/
def update_product (s : State) (now : Int) (uuidHex : String) (product_id : Nat)
    (name : Option String) (description : Option String) (price : Option Int)
    (category_id : Option Nat) (image : Option UploadFile) :
    Except HTTPError Product × State :=
  match s.products.find? (fun p => p.id == product_id) with
  | none => (.error ⟨404, "Producto no encontrado"⟩, s)
  | some product =>
    let proceed : Option Nat → Except HTTPError Product × State := fun newCat =>
      let assigned : Product :=
        { product with
          name := name.getD product.name
          description := description.or product.description
          price := price.getD product.price
          category_id := newCat }
      let withImage : Product × List String :=
        if hasUpload image then
          let pruned : List String :=
            match assigned.image_path with
            | some old => s.files.erase old
            | none => s.files
          let generated := uuidHex ++ splitextExt (filenameOf image)
          ({ assigned with image_path := some generated }, pruned ++ [generated])
        else
          (assigned, s.files)
      let final : Product :=
        if withImage.1 = product then withImage.1 else { withImage.1 with updated_at := now }
      (.ok final,
       { s with
         products := s.products.map (fun q => if q.id == product_id then final else q)
         files := withImage.2 })
    match category_id with
    | none => proceed product.category_id
    | some cid =>
      if (s.categories.find? (fun c => c.id == cid)).isNone then
        (.error ⟨400, "Categoría no encontrada"⟩, s)
      else
        proceed (some cid)

/-- Outcome of an HTML admin form handler: redirect to the login page
(unauthenticated) or redirect back to the product list. -/
inductive AdminPage where
  | loginRedirect
  | productsRedirect
  deriving Repr, DecidableEq

/-- HTML admin product create: `product_create` in `app/admin/router.py`
(lines 80-112).  After cookie authentication it writes the optional upload
and inserts the product; `description or None` maps the empty form field to
NULL.  The handler takes a free-string `category` form field, performs no
lookup against the `Category` table, and never assigns `category_id` (the
admin surface was not migrated to the foreign-key model that the JSON
routers and `migrate_categories.py` use). -/
def admin_product_create (settings : Settings) (now : Int) (newId : Nat) (uuidHex : String)
    (cookie : Option Token) (name : String) (description : String) (price : Int)
    (category : String) (image : Option UploadFile) (s : State) : AdminPage × State :=
  match get_admin_from_cookie settings now cookie s with
  | none => (.loginRedirect, s)
  | some _ =>
    let image_path : Option String :=
      if hasUpload image then some (uuidHex ++ splitextExt (filenameOf image)) else none
    let files1 : List String :=
      match image_path with
      | some f => s.files ++ [f]
      | none => s.files
    let product : Product :=
      { id := newId, name := name
        description := if description = "" then none else some description
        price := price
        category_id := none
        category := some category
        image_path := image_path, created_at := now, updated_at := now }
    (.productsRedirect, { s with products := s.products ++ [product], files := files1 })

/-- Referential-integrity invariant from spec §3: every product's
`category_id` names an existing category. -/
def productCategoryInvariant (s : State) : Prop :=
  ∀ p ∈ s.products, ∃ c ∈ s.categories, p.category_id = some c.id

/-- One optional field of a JSON request body: absent, explicit `null`, or a
value.  Pydantic parses both `absent` and `null` of an `Optional` field to
Python `None`, which is what the `Form(None)` parameters of the update
endpoint receive. -/
inductive JsonField (α : Type) where
  | absent
  | null
  | value (a : α)
  deriving Repr, DecidableEq

/-- HTTP-layer parsing of one optional field into the handler's view. -/
def parseField {α : Type} : JsonField α → Option α
  | .absent => none
  | .null => none
  | .value a => some a

/-- Concrete settings used by closed evaluation theorems. -/
def settings0 : Settings :=
  { DATABASE_URL := "postgresql+asyncpg://localhost/marzetti", JWT_SECRET := "s3cret" }

/-- Concrete store with one admin, no categories, no products and no files. -/
def s0 : State :=
  { admins := [{ id := 1, username := "admin", password_hash := "h", created_at := 0 }]
    categories := []
    products := []
    files := [] }

/-- A valid cookie for `s0`'s admin, freshly minted at time 0. -/
def cookie0 : Option Token := some (create_access_token settings0 0 (some "admin"))

/-- Result of submitting the admin HTML create form with category string
"Peluqueria" against `s0`, which contains no category rows at all. -/
def adminCreateRun : AdminPage × State :=
  admin_product_create settings0 0 1 "deadbeef" cookie0 "Shampoo" "" 1500 "Peluqueria" none s0

/-- C1: the claim that every create/update path verifies the supplied
category fails on the code.  The HTML admin create form
(`app/admin/router.py::product_create`) performs no category verification:
against a store with zero categories it succeeds (redirects to the product
list) and inserts a product whose `category_id` references no existing
category, breaking the invariant.  (The repository is internally
inconsistent here: `app/models.py` still has the legacy string `category`
column and defines no `Category` class, although `app/main.py` and the
routers import one.) -/
theorem adminCreateBreaksCategoryInvariant :
    productCategoryInvariant s0 ∧
    adminCreateRun.1 = AdminPage.productsRedirect ∧
    adminCreateRun.2.products.length = 1 ∧
    (∀ p ∈ adminCreateRun.2.products, p.category_id = none ∧ p.category = some "Peluqueria") ∧
    adminCreateRun.2.categories = [] ∧
    ¬ productCategoryInvariant adminCreateRun.2 := by
  refine ⟨?_, ?_, ?_, ?_, ?_, ?_⟩
  case refine_1 => unfold productCategoryInvariant; decide
  case refine_2 => decide
  case refine_3 => decide
  case refine_4 => decide
  case refine_5 => decide
  case refine_6 => unfold productCategoryInvariant; decide

/-- C2: every failed login — unknown username, or known username with a
password that does not verify against the stored hash — produces the one and
the same authentication-failure result, in the JSON endpoint and in the HTML
form alike; the two causes are indistinguishable to the caller. -/
theorem loginFailureUniform (vp : String → String → Bool) (settings : Settings)
    (now : Int) (s : State) (username password : String)
    (h : (∀ a ∈ s.admins, a.username ≠ username) ∨
         (∃ a, s.admins.find? (fun a => a.username == username) = some a ∧
            vp password a.password_hash = false)) :
    login vp settings now s username password =
      Except.error ⟨401, "Credenciales inv√°lidas"⟩ ∧
    login_submit vp settings now s username password =
      LoginPage.errorPage "Credenciales inválidas" := by
  rcases h with h | ⟨a, hfind, hvp⟩
  · have hnone : s.admins.find? (fun a => a.username == username) = none := by
      rw [List.find?_eq_none]
      intro x hx
      simpa using h x hx
    constructor <;> simp [login, login_submit, hnone]
  · constructor <;> simp [login, login_submit, hfind, hvp]

/-- Witness for C2 at a concrete store: the username "ghost" matches no
admin of `s0`, and the login result is the uniform failure. -/
theorem loginFailureUniform_witness :
    (∀ a ∈ s0.admins, a.username ≠ "ghost") ∧
    (login (fun _ _ => false) settings0 0 s0 "ghost" "pw" =
      Except.error ⟨401, "Credenciales inv√°lidas"⟩ ∧
    login_submit (fun _ _ => false) settings0 0 s0 "ghost" "pw" =
      LoginPage.errorPage "Credenciales inválidas") := by
  refine ⟨by decide, ?_⟩
  exact loginFailureUniform (fun _ _ => false) settings0 0 s0 "ghost" "pw" (Or.inl (by decide))

/-- C3: a token issued for a subject validates to a payload carrying that
same subject at any clock time strictly before its expiry
(issue time + JWT_EXPIRE_HOURS hours), validates to `none` at any time
strictly after it, and the configured duration defaults to 24 hours. -/
theorem tokenValidationByClock (settings : Settings) (sub : String) (issued t : Int) :
    (t < issued + settings.JWT_EXPIRE_HOURS * 3600 →
      ∃ payload,
        decode_token settings t (create_access_token settings issued (some sub)) =
          some payload ∧ payload.sub = some sub) ∧
    (issued + settings.JWT_EXPIRE_HOURS * 3600 < t →
      decode_token settings t (create_access_token settings issued (some sub)) = none) ∧
    (∀ dburl secret : String,
      ({ DATABASE_URL := dburl, JWT_SECRET := secret } : Settings).JWT_EXPIRE_HOURS = 24) := by
  refine ⟨?_, ?_, fun _ _ => rfl⟩
  · intro h
    refine ⟨create_access_token settings issued (some sub), ?_, rfl⟩
    unfold decode_token
    rw [if_pos]
    exact ⟨rfl, rfl, by simp only [create_access_token]; omega⟩
  · intro h
    unfold decode_token
    rw [if_neg]
    intro hcond
    exact hcond.2.2 (by simp only [create_access_token]; omega)

/-- Witness for C3: with the default 24-hour duration a token issued at time
0 validates at time 5 and is invalid at time 90000 (> 86400). -/
theorem tokenValidationByClock_witness :
    ((5 : Int) < 0 + settings0.JWT_EXPIRE_HOURS * 3600 ∧
      ∃ payload,
        decode_token settings0 5 (create_access_token settings0 0 (some "admin")) =
          some payload ∧ payload.sub = some "admin") ∧
    ((0 + settings0.JWT_EXPIRE_HOURS * 3600 < (90000 : Int)) ∧
      decode_token settings0 90000 (create_access_token settings0 0 (some "admin")) = none) := by
  refine ⟨⟨by decide, ?_⟩, ⟨by decide, ?_⟩⟩
  · exact (tokenValidationByClock settings0 "admin" 0 5).1 (by decide)
  · exact (tokenValidationByClock settings0 "admin" 0 90000).2.1 (by decide)

/-- C4: a cryptographically valid, unexpired token whose subject matches no
admin row is treated as unauthenticated on both transports: the header
resolver returns a 401 rejection and the cookie resolver returns no admin,
both as ordinary return values. -/
theorem staleSubjectUnauthenticated (settings : Settings) (now : Int) (tok : Token)
    (u : String) (s : State)
    (hdec : decode_token settings now tok = some tok)
    (hsub : tok.sub = some u)
    (hnone : ∀ a ∈ s.admins, a.username ≠ u) :
    (∃ e, get_current_admin settings now (some tok) s = .error e ∧ e.status = 401) ∧
    get_admin_from_cookie settings now (some tok) s = none := by
  have hfind : s.admins.find? (fun a => a.username == u) = none := by
    rw [List.find?_eq_none]
    intro x hx
    simpa using hnone x hx
  by_cases hu : u = ""
  · subst hu
    refine ⟨⟨⟨401, "Token inválido"⟩, ?_, rfl⟩, ?_⟩
    · simp [get_current_admin, hdec, hsub]
    · simp [get_admin_from_cookie, hdec, hsub]
  · refine ⟨⟨⟨401, "Admin no encontrado"⟩, ?_, rfl⟩, ?_⟩
    · simp [get_current_admin, hdec, hsub, hu, hfind]
    · simp [get_admin_from_cookie, hdec, hsub, hu, hfind]

/-- Token for the subject "ghost", valid in `settings0` but matching no admin
row of `s0`. -/
def tok0 : Token := create_access_token settings0 0 (some "ghost")

/-- Witness for C4 at a concrete store: `tok0` decodes successfully at time 0
yet both resolvers treat the request as unauthenticated. -/
theorem staleSubjectUnauthenticated_witness :
    (decode_token settings0 0 tok0 = some tok0 ∧ tok0.sub = some "ghost" ∧
      ∀ a ∈ s0.admins, a.username ≠ "ghost") ∧
    ((∃ e, get_current_admin settings0 0 (some tok0) s0 = .error e ∧ e.status = 401) ∧
      get_admin_from_cookie settings0 0 (some tok0) s0 = none) := by
  refine ⟨⟨by decide, by decide, by decide⟩, ?_⟩
  exact staleSubjectUnauthenticated settings0 0 tok0 "ghost" s0 (by decide) (by decide)
    (by decide)

/-- C7: creating a category whose name exactly equals an existing name is
rejected, otherwise the create succeeds; renaming an existing category to a
name held by a category with a different id is rejected, otherwise the
rename succeeds.  Name comparison is string equality (case-sensitive). -/
theorem categoryNameUniqueness (s : State) (now : Int) (newId : Nat) (nm : String)
    (cid : Nat) :
    ((∃ c ∈ s.categories, c.name = nm) →
      (create_category s now newId nm).1 = .error ⟨400, "La categoría ya existe"⟩) ∧
    ((∀ c ∈ s.categories, c.name ≠ nm) →
      (create_category s now newId nm).1 = .ok { id := newId, name := nm, created_at := now }) ∧
    (∀ c0, s.categories.find? (fun c => c.id == cid) = some c0 →
      ((∃ c ∈ s.categories, c.name = nm ∧ c.id ≠ cid) →
        (update_category s cid nm).1 = .error ⟨400, "El nombre de categoría ya existe"⟩) ∧
      ((∀ c ∈ s.categories, c.name = nm → c.id = cid) →
        (update_category s cid nm).1 = .ok { c0 with name := nm })) := by
  refine ⟨?_, ?_, ?_⟩
  · rintro ⟨c, hc, hname⟩
    have hsome : (s.categories.find? (fun c => c.name == nm)).isSome := by
      exact List.find?_isSome.2 ⟨c, hc, by simp [hname]⟩
    simp [create_category, hsome]
  · intro h
    have hnone : s.categories.find? (fun c => c.name == nm) = none := by
      rw [List.find?_eq_none]
      intro x hx
      simpa using h x hx
    simp [create_category, hnone]
  · intro c0 hfind
    refine ⟨?_, ?_⟩
    · rintro ⟨c, hc, hname, hid⟩
      have hsome : (s.categories.find? (fun c => c.name == nm && c.id != cid)).isSome := by
        exact List.find?_isSome.2 ⟨c, hc, by simp [hname, hid]⟩
      simp [update_category, hfind, hsome]
    · intro h
      have hnone : s.categories.find? (fun c => c.name == nm && c.id != cid) = none := by
        rw [List.find?_eq_none]
        intro x hx
        simp only [Bool.and_eq_true, beq_iff_eq, bne_iff_ne, ne_eq, not_and, not_not]
        exact h x hx
      simp [update_category, hfind, hnone]

/-- Product referencing category 1, used by several concrete witnesses. -/
def p10 : Product :=
  { id := 10, name := "Cola", description := none, price := 250
    category_id := some 1, category := none, image_path := none
    created_at := 0, updated_at := 0 }

/-- Store with two categories used by the C7 and C8 witnesses: "Drinks" is
referenced by `p10`, "Food" by nothing. -/
def sCat : State :=
  { admins := []
    categories := [{ id := 1, name := "Drinks", created_at := 0 },
                   { id := 2, name := "Food", created_at := 0 }]
    products := [p10]
    files := [] }

/-- Witness for C7 on `sCat`: duplicate create rejected, fresh create
accepted, rename onto a name held by a different id rejected, rename to a
fresh name accepted. -/
theorem categoryNameUniqueness_witness :
    ((∃ c ∈ sCat.categories, c.name = "Drinks") ∧
      (create_category sCat 0 3 "Drinks").1 = .error ⟨400, "La categoría ya existe"⟩) ∧
    ((∀ c ∈ sCat.categories, c.name ≠ "Beer") ∧
      (create_category sCat 0 3 "Beer").1 =
        .ok { id := 3, name := "Beer", created_at := 0 }) ∧
    ((∃ c ∈ sCat.categories, c.name = "Drinks" ∧ c.id ≠ 2) ∧
      (update_category sCat 2 "Drinks").1 =
        .error ⟨400, "El nombre de categoría ya existe"⟩) ∧
    ((∀ c ∈ sCat.categories, c.name = "Snacks" → c.id = 2) ∧
      (update_category sCat 2 "Snacks").1 =
        .ok { id := 2, name := "Snacks", created_at := 0 }) := by
  refine ⟨⟨by decide, ?_⟩, ⟨by decide, ?_⟩, ⟨by decide, ?_⟩, ⟨by decide, ?_⟩⟩
  · exact (categoryNameUniqueness sCat 0 3 "Drinks" 2).1 (by decide)
  · exact (categoryNameUniqueness sCat 0 3 "Beer" 2).2.1 (by decide)
  · exact ((categoryNameUniqueness sCat 0 3 "Drinks" 2).2.2
      { id := 2, name := "Food", created_at := 0 } (by decide)).1 (by decide)
  · exact ((categoryNameUniqueness sCat 0 3 "Snacks" 2).2.2
      { id := 2, name := "Food", created_at := 0 } (by decide)).2 (by decide)

/-- C8: deleting a category referenced by at least one product fails with the
conflict error and the state — category and all products — is returned
unchanged; deleting a category referenced by no product succeeds and removes
exactly the rows with that id, the products untouched. -/
theorem deleteCategoryReferenced (s : State) (cid : Nat) (c0 : Category)
    (hfind : s.categories.find? (fun c => c.id == cid) = some c0) :
    ((∃ p ∈ s.products, p.category_id = some cid) →
      delete_category s cid =
        (.error ⟨400, "No se puede eliminar una categoría que tiene productos asociados"⟩, s)) ∧
    ((∀ p ∈ s.products, p.category_id ≠ some cid) →
      delete_category s cid =
        (.ok (), { s with categories := s.categories.filter (fun c => c.id != cid) })) := by
  refine ⟨?_, ?_⟩
  · rintro ⟨p, hp, hpid⟩
    have hsome : (s.products.find? (fun p => p.category_id == some cid)).isSome := by
      exact List.find?_isSome.2 ⟨p, hp, by simp [hpid]⟩
    simp [delete_category, hfind, hsome]
  · intro h
    have hnone : s.products.find? (fun p => p.category_id == some cid) = none := by
      rw [List.find?_eq_none]
      intro x hx
      simpa using h x hx
    simp [delete_category, hfind, hnone]

/-- Witness for C8 on `sCat`: "Drinks" (id 1, referenced) cannot be deleted
and the state is unchanged; "Food" (id 2, unreferenced) is deleted. -/
theorem deleteCategoryReferenced_witness :
    ((∃ p ∈ sCat.products, p.category_id = some 1) ∧
      delete_category sCat 1 =
        (.error ⟨400, "No se puede eliminar una categoría que tiene productos asociados"⟩,
          sCat)) ∧
    ((∀ p ∈ sCat.products, p.category_id ≠ some 2) ∧
      delete_category sCat 2 =
        (.ok (), { sCat with categories := sCat.categories.filter (fun c => c.id != 2) })) := by
  refine ⟨⟨by decide, ?_⟩, ⟨by decide, ?_⟩⟩
  · exact (deleteCategoryReferenced sCat 1 { id := 1, name := "Drinks", created_at := 0 }
      (by decide)).1 (by decide)
  · exact (deleteCategoryReferenced sCat 2 { id := 2, name := "Food", created_at := 0 }
      (by decide)).2 (by decide)

/-- C9: a product create whose `category_id` matches no category is rejected
with 400 and nothing is persisted: the returned state is the input state, so
the product count and the file store are unchanged — the check runs before
the image write and before the insert. -/
theorem createProductMissingCategory (s : State) (now : Int) (newId : Nat)
    (uuidHex : String) (nm : String) (description : Option String) (price : Int)
    (cid : Nat) (image : Option UploadFile)
    (hnone : ∀ c ∈ s.categories, c.id ≠ cid) :
    create_product s now newId uuidHex nm description price cid image =
      (.error ⟨400, "Categoría no encontrada"⟩, s) ∧
    (create_product s now newId uuidHex nm description price cid image).2.products.length
      = s.products.length ∧
    (create_product s now newId uuidHex nm description price cid image).2.files = s.files := by
  have hfind : s.categories.find? (fun c => c.id == cid) = none := by
    rw [List.find?_eq_none]
    intro x hx
    simpa using hnone x hx
  have heq : create_product s now newId uuidHex nm description price cid image =
      (.error ⟨400, "Categoría no encontrada"⟩, s) := by
    simp [create_product, hfind]
  exact ⟨heq, by rw [heq], by rw [heq]⟩

/-- Witness for C9 on `s0` (no categories): the create with an image upload
is rejected and neither the product table nor the file store changes. -/
theorem createProductMissingCategory_witness :
    (∀ c ∈ s0.categories, c.id ≠ 7) ∧
    (create_product s0 0 1 "cafebabe" "Shampoo" none 1500 7 (some ⟨"pic.png"⟩) =
      (.error ⟨400, "Categoría no encontrada"⟩, s0) ∧
    (create_product s0 0 1 "cafebabe" "Shampoo" none 1500 7 (some ⟨"pic.png"⟩)).2.products.length
      = s0.products.length ∧
    (create_product s0 0 1 "cafebabe" "Shampoo" none 1500 7 (some ⟨"pic.png"⟩)).2.files
      = s0.files) := by
  refine ⟨by decide, ?_⟩
  exact createProductMissingCategory s0 0 1 "cafebabe" "Shampoo" none 1500 7
    (some ⟨"pic.png"⟩) (by decide)

/-- C5: a JSON product update supplying any subset of
name/description/price/category_id (and no image) changes exactly the
supplied fields — every omitted field keeps its previous value — and
`updated_at` is refreshed exactly when the row actually mutates (otherwise
the row is returned unchanged). -/
theorem updateProductFrame (s : State) (now : Int) (uuidHex : String) (pid : Nat)
    (name description : Option String) (price : Option Int) (category_id : Option Nat)
    (p0 : Product)
    (hfind : s.products.find? (fun p => p.id == pid) = some p0)
    (hcat : ∀ cid, category_id = some cid →
      (s.categories.find? (fun c => c.id == cid)).isSome) :
    ∃ p1,
      (update_product s now uuidHex pid name description price category_id none).1 = .ok p1 ∧
      p1.name = name.getD p0.name ∧
      p1.description = description.or p0.description ∧
      p1.price = price.getD p0.price ∧
      p1.category_id = category_id.or p0.category_id ∧
      p1.image_path = p0.image_path ∧
      p1.created_at = p0.created_at ∧
      (p1 = p0 ∨ p1.updated_at = now) := by
  unfold update_product
  rw [hfind]
  rcases category_id with _ | cid
  · simp only [hasUpload, Bool.false_eq_true, if_false]
    refine ⟨_, rfl, ?_, ?_, ?_, ?_, ?_, ?_, ?_⟩
    · split <;> rfl
    · split <;> rfl
    · split <;> rfl
    · split <;> rfl
    · split <;> rfl
    · split <;> rfl
    · split
      next h => exact Or.inl h
      next => exact Or.inr rfl
  · obtain ⟨c, hc⟩ := Option.isSome_iff_exists.1 (hcat cid rfl)
    simp only [hc, Option.isNone_some, Bool.false_eq_true, if_false, hasUpload]
    refine ⟨_, rfl, ?_, ?_, ?_, ?_, ?_, ?_, ?_⟩
    · split <;> rfl
    · split <;> rfl
    · split <;> rfl
    · split <;> rfl
    · split <;> rfl
    · split <;> rfl
    · split
      next h => exact Or.inl h
      next => exact Or.inr rfl

/-- Witness for C5 on `sCat`: supplying only `price` (to a new value) leaves
name, description, category_id and image unchanged and refreshes
`updated_at` to the request time. -/
theorem updateProductFrame_witness :
    sCat.products.find? (fun p => p.id == 10) = some p10 ∧
    ∃ p1,
      (update_product sCat 99 "x" 10 none none (some 300) none none).1 = .ok p1 ∧
      p1.name = Option.getD none p10.name ∧
      p1.description = Option.or none p10.description ∧
      p1.price = Option.getD (some 300) p10.price ∧
      p1.category_id = Option.or none p10.category_id ∧
      p1.image_path = p10.image_path ∧
      p1.created_at = p10.created_at ∧
      (p1 = p10 ∨ p1.updated_at = 99) := by
  refine ⟨by decide, ?_⟩
  exact updateProductFrame sCat 99 "x" 10 none none (some 300) none p10 (by decide)
    (fun cid h => Option.noConfusion h)

/-- C6: updating a product that already has a stored image with a new upload
removes the old file from the store, stores the new content under the
generated name `uuid4().hex ++ original extension` (the client-supplied base
name is never used), points `image_path` exactly at that generated name, and
afterwards exactly one stored file carries the product's name. -/
theorem updateProductImageReplace (s : State) (now : Int) (uuidHex : String) (pid : Nat)
    (name description : Option String) (price : Option Int) (p0 : Product)
    (old fname : String)
    (hfind : s.products.find? (fun p => p.id == pid) = some p0)
    (hold : p0.image_path = some old)
    (hfname : fname ≠ "")
    (hfresh : uuidHex ++ splitextExt fname ∉ s.files)
    (hnodup : s.files.Nodup)
    (holdmem : old ∈ s.files) :
    ∃ p1,
      (update_product s now uuidHex pid name description price none (some ⟨fname⟩)).1
        = .ok p1 ∧
      p1.image_path = some (uuidHex ++ splitextExt fname) ∧
      (update_product s now uuidHex pid name description price none (some ⟨fname⟩)).2.files
        = s.files.erase old ++ [uuidHex ++ splitextExt fname] ∧
      uuidHex ++ splitextExt fname ∈
        (update_product s now uuidHex pid name description price none (some ⟨fname⟩)).2.files ∧
      old ∉
        (update_product s now uuidHex pid name description price none (some ⟨fname⟩)).2.files ∧
      ((update_product s now uuidHex pid name description price none
          (some ⟨fname⟩)).2.files).count (uuidHex ++ splitextExt fname) = 1 := by
  have himg : hasUpload (some ⟨fname⟩) = true := by
    simp [hasUpload, hfname]
  have hgen_ne : old ≠ uuidHex ++ splitextExt fname := fun h => hfresh (h ▸ holdmem)
  unfold update_product
  rw [hfind]
  simp only [himg, eq_self_iff_true, if_true, hold]
  refine ⟨_, rfl, ?_, ?_, ?_, ?_, ?_⟩
  · split <;> rfl
  · rfl
  · exact List.mem_append_right _ (List.mem_singleton.2 rfl)
  · intro hmem
    rcases List.mem_append.1 hmem with h | h
    · exact ((List.Nodup.mem_erase_iff hnodup).1 h).1 rfl
    · exact hgen_ne (List.mem_singleton.1 h)
  · rw [List.count_append]
    rw [List.count_eq_zero.2 (fun hm => hfresh (List.mem_of_mem_erase hm))]
    simp [filenameOf]

/-- Product with a stored image and a description, used by the C6 and C10
witnesses. -/
def pImg : Product :=
  { id := 20, name := "Gel", description := some "fijador", price := 900
    category_id := some 1, category := none, image_path := some "oldpic.png"
    created_at := 0, updated_at := 0 }

/-- Store holding `pImg`, its image file and one unrelated file. -/
def sImg : State :=
  { admins := []
    categories := [{ id := 1, name := "Drinks", created_at := 0 }]
    products := [pImg]
    files := ["oldpic.png", "other.bin"] }

/-- Witness for C6 on `sImg`: replacing "oldpic.png" by an upload named
"new.jpg" under the fresh token "fresh01" deletes the old file, stores
"fresh01.jpg", and leaves exactly one file for the product. -/
theorem updateProductImageReplace_witness :
    (sImg.products.find? (fun p => p.id == 20) = some pImg ∧
      pImg.image_path = some "oldpic.png" ∧
      "fresh01" ++ splitextExt "new.jpg" ∉ sImg.files ∧
      sImg.files.Nodup ∧ "oldpic.png" ∈ sImg.files) ∧
    ∃ p1,
      (update_product sImg 7 "fresh01" 20 none none none none (some ⟨"new.jpg"⟩)).1
        = .ok p1 ∧
      p1.image_path = some ("fresh01" ++ splitextExt "new.jpg") ∧
      (update_product sImg 7 "fresh01" 20 none none none none (some ⟨"new.jpg"⟩)).2.files
        = sImg.files.erase "oldpic.png" ++ ["fresh01" ++ splitextExt "new.jpg"] ∧
      "fresh01" ++ splitextExt "new.jpg" ∈
        (update_product sImg 7 "fresh01" 20 none none none none (some ⟨"new.jpg"⟩)).2.files ∧
      "oldpic.png" ∉
        (update_product sImg 7 "fresh01" 20 none none none none (some ⟨"new.jpg"⟩)).2.files ∧
      ((update_product sImg 7 "fresh01" 20 none none none none
          (some ⟨"new.jpg"⟩)).2.files).count ("fresh01" ++ splitextExt "new.jpg") = 1 := by
  refine ⟨⟨by decide, by decide, by decide, by decide, by decide⟩, ?_⟩
  exact updateProductImageReplace sImg 7 "fresh01" 20 none none none pImg "oldpic.png"
    "new.jpg" (by decide) (by decide) (by decide) (by decide) (by decide) (by decide)

/-- C10: the HTTP layer parses an explicitly supplied `null` and an omitted
field to the same `None`, so the JSON update cannot distinguish them — the
field keeps its previous value — and consequently no update request can
clear a product's description (it can only be replaced by another string) or
remove its image. -/
theorem updateNullEqualsOmitted (s : State) (now : Int) (uuidHex : String) (pid : Nat)
    (nameF descF : JsonField String) (priceF : JsonField Int) (catF : JsonField Nat)
    (image : Option UploadFile) (p0 : Product)
    (hfind : s.products.find? (fun p => p.id == pid) = some p0)
    (hcat : ∀ cid, parseField catF = some cid →
      (s.categories.find? (fun c => c.id == cid)).isSome) :
    parseField (JsonField.null : JsonField String) =
      parseField (JsonField.absent : JsonField String) ∧
    ∀ p1,
      (update_product s now uuidHex pid (parseField nameF) (parseField descF)
        (parseField priceF) (parseField catF) image).1 = .ok p1 →
      ((descF = JsonField.null ∨ descF = JsonField.absent) →
        p1.description = p0.description) ∧
      (p0.description.isSome → p1.description.isSome) ∧
      (p0.image_path.isSome → p1.image_path.isSome) := by
  refine ⟨rfl, ?_⟩
  intro p1 heq
  have hmain : p1.description = (parseField descF).or p0.description ∧
      (p1.image_path = p0.image_path ∨ ∃ g, p1.image_path = some g) := by
    unfold update_product at heq
    rw [hfind] at heq
    rcases hcf : parseField catF with _ | cid
    · rw [hcf] at heq
      by_cases himg : hasUpload image = true
      · simp only [himg, eq_self_iff_true, if_true] at heq
        injection heq with h
        subst h
        refine ⟨by split <;> rfl, Or.inr ⟨_, by split <;> rfl⟩⟩
      · rw [Bool.not_eq_true] at himg
        simp only [himg, Bool.false_eq_true, if_false] at heq
        injection heq with h
        subst h
        refine ⟨by split <;> rfl, Or.inl (by split <;> rfl)⟩
    · rw [hcf] at heq
      obtain ⟨c, hc⟩ := Option.isSome_iff_exists.1 (hcat cid hcf)
      simp only [hc, Option.isNone_some, Bool.false_eq_true, if_false] at heq
      by_cases himg : hasUpload image = true
      · simp only [himg, eq_self_iff_true, if_true] at heq
        injection heq with h
        subst h
        refine ⟨by split <;> rfl, Or.inr ⟨_, by split <;> rfl⟩⟩
      · rw [Bool.not_eq_true] at himg
        simp only [himg, Bool.false_eq_true, if_false] at heq
        injection heq with h
        subst h
        refine ⟨by split <;> rfl, Or.inl (by split <;> rfl)⟩
  obtain ⟨hdesc, himgp⟩ := hmain
  refine ⟨?_, ?_, ?_⟩
  · rintro (rfl | rfl) <;> simp [hdesc, parseField]
  · intro hsome
    rw [hdesc]
    cases hdf : parseField descF
    · simpa using hsome
    · simp
  · intro hsome
    rcases himgp with h | ⟨g, h⟩
    · rw [h]; exact hsome
    · rw [h]; rfl

/-- Result of the C10 witness run: only `price` was supplied (111), the
explicit-null description left "fijador" in place, and `updated_at` was
refreshed. -/
def p1c : Product := { pImg with price := 111, updated_at := 7 }

/-- Witness for C10 on `sImg`: a concrete update carrying an explicit null
description behaves exactly like an omitted field — the stored description
and image survive. -/
theorem updateNullEqualsOmitted_witness :
    parseField (JsonField.null : JsonField String) =
      parseField (JsonField.absent : JsonField String) ∧
    (update_product sImg 7 "x" 20 (parseField (JsonField.absent : JsonField String))
      (parseField (JsonField.null : JsonField String))
      (parseField (JsonField.value (111 : Int)))
      (parseField (JsonField.absent : JsonField Nat)) none).1 = .ok p1c ∧
    p1c.description = pImg.description ∧
    p1c.description.isSome ∧
    p1c.image_path.isSome := by
  have happ := updateNullEqualsOmitted sImg 7 "x" 20 JsonField.absent JsonField.null
    (JsonField.value 111) JsonField.absent none pImg (by decide)
    (fun cid h => Option.noConfusion h)
  refine ⟨rfl, by rfl, ?_, ?_, ?_⟩
  · exact (happ.2 p1c (by rfl)).1 (Or.inl rfl)
  · exact (happ.2 p1c (by rfl)).2.1 (by decide)
  · exact (happ.2 p1c (by rfl)).2.2 (by decide)

end Marzetti
